import Mathlib

/-!
# Verification of the egui_glow `Painter` (`crates/egui_glow/src/painter.rs`)

Shallow embedding of the painter's data model and operations, together with
theorems about its clip/scissor transform, texture table, resource lifecycle
guard and paint loop.

Modelling conventions:
* Rust `f32` values (clip-rect coordinates, `pixels_per_point`) are modelled
  as exact rationals; `f32::round` rounds half away from zero, and the
  saturating float-to-int `as i32` cast is modelled by `satI32`.
* Rust `u32` / `usize` / `u64` values are `Nat`; the integer `as i32` cast on
  a `u32` (which wraps, two's complement) is modelled by `u32AsI32`, and the
  wrapping `u64` increment of `next_native_tex_id` (`+= 1` in release mode)
  is modelled by `(· + 1) % 2 ^ 64`.
* GPU side effects are recorded as an explicit trace of `GlOp` values.
* A Rust panic (a failed `assert!` / `assert_eq!`, or `Ord::clamp` invoked
  with `min > max`) aborts the process; it is modelled as `Except.error`
  carrying a `PanicKind` naming the failed check. State at the moment of a
  panic is unobservable and is discarded.
-/

/-- Round half away from zero: the semantics of Rust `f32::round`.
(For negative `x` this is `⌈x - 1/2⌉`, written via `⌊⌋`.) -/
def rustRound (x : ℚ) : ℤ :=
  if 0 ≤ x then ⌊x + 1 / 2⌋ else -⌊-x + 1 / 2⌋

/-- Saturating cast of an unbounded integer into the `i32` range: the
semantics of Rust float-to-int `as i32` (applied after rounding). -/
def satI32 (n : ℤ) : ℤ :=
  max (-(2 ^ 31)) (min n (2 ^ 31 - 1))

/-- `w as i32` for a `u32` value `w`: two's-complement wrap into `i32`. -/
def u32AsI32 (w : ℕ) : ℤ :=
  if w % 2 ^ 32 < 2 ^ 31 then ((w % 2 ^ 32 : ℕ) : ℤ)
  else ((w % 2 ^ 32 : ℕ) : ℤ) - 2 ^ 32

/-- Rust `Ord::clamp`: `x.clamp(lo, hi)` panics (`none`) when `lo > hi`. -/
def rustClamp (x lo hi : ℤ) : Option ℤ :=
  if lo ≤ hi then some (max lo (min x hi)) else none

/-- `egui::emath::Rect`, in logical units (`f32` fields modelled as `ℚ`). -/
structure Rect where
  min_x : ℚ
  min_y : ℚ
  max_x : ℚ
  max_y : ℚ
deriving DecidableEq, Repr

/-- The four arguments passed to `gl.scissor(x, y, width, height)`. -/
structure ScissorRect where
  x : ℤ
  y : ℤ
  width : ℤ
  height : ℤ
deriving DecidableEq, Repr

/-- The scale / round / clamp stage of `set_clip_rect`
(`painter.rs` lines 765-781): the four clamped pixel coordinates
`(clip_min_x, clip_min_y, clip_max_x, clip_max_y)`, or `none` if one of the
`Ord::clamp` calls panics (which happens exactly when `width_px as i32` or
`height_px as i32` is negative). -/
def clipBounds (width_px height_px : ℕ) (pixels_per_point : ℚ) (clip_rect : Rect) :
    Option (ℤ × ℤ × ℤ × ℤ) := do
  let clip_min_x := satI32 (rustRound (pixels_per_point * clip_rect.min_x))
  let clip_min_y := satI32 (rustRound (pixels_per_point * clip_rect.min_y))
  let clip_max_x := satI32 (rustRound (pixels_per_point * clip_rect.max_x))
  let clip_max_y := satI32 (rustRound (pixels_per_point * clip_rect.max_y))
  let clip_min_x ← rustClamp clip_min_x 0 (u32AsI32 width_px)
  let clip_min_y ← rustClamp clip_min_y 0 (u32AsI32 height_px)
  let clip_max_x ← rustClamp clip_max_x clip_min_x (u32AsI32 width_px)
  let clip_max_y ← rustClamp clip_max_y clip_min_y (u32AsI32 height_px)
  some (clip_min_x, clip_min_y, clip_max_x, clip_max_y)

/-- `set_clip_rect` (`painter.rs` lines 759-791): the scissor rectangle
handed to `gl.scissor`, with bottom-left origin. -/
def set_clip_rect (width_px height_px : ℕ) (pixels_per_point : ℚ) (clip_rect : Rect) :
    Option ScissorRect := do
  let (clip_min_x, clip_min_y, clip_max_x, clip_max_y) ←
    clipBounds width_px height_px pixels_per_point clip_rect
  some ⟨clip_min_x, u32AsI32 height_px - clip_max_y,
        clip_max_x - clip_min_x, clip_max_y - clip_min_y⟩

/-- Modelled from the spec (§4.3): the clip/scissor transform as the spec
words it — scale all four corner coordinates by the density, round each
independently to the nearest integer (no saturation step), then clamp min-x
and min-y to `[0, target_dimension]`, max-x to `[min_x, target_width]`,
max-y to `[min_y, target_height]`; y-offset is `target_height - max_y`,
width `max_x - min_x`, height `max_y - min_y`. Used only for comparison
with `set_clip_rect`. -/
def scissorSpecRect (width_px height_px : ℕ) (pixels_per_point : ℚ) (clip_rect : Rect) :
    ScissorRect :=
  let min_x := max 0 (min (rustRound (pixels_per_point * clip_rect.min_x)) (width_px : ℤ))
  let min_y := max 0 (min (rustRound (pixels_per_point * clip_rect.min_y)) (height_px : ℤ))
  let max_x := max min_x (min (rustRound (pixels_per_point * clip_rect.max_x)) (width_px : ℤ))
  let max_y := max min_y (min (rustRound (pixels_per_point * clip_rect.max_y)) (height_px : ℤ))
  ⟨min_x, (height_px : ℤ) - max_y, max_x - min_x, max_y - min_y⟩

/-- Closed form of the four clamped coordinates produced by `clipBounds`
when none of the clamps panic (Rust `x.clamp(lo, hi)` with `lo ≤ hi` is
`max lo (min x hi)`). -/
def clampedBounds (width_px height_px : ℕ) (pixels_per_point : ℚ) (clip_rect : Rect) :
    ℤ × ℤ × ℤ × ℤ :=
  let min_x := max 0 (min (satI32 (rustRound (pixels_per_point * clip_rect.min_x))) (width_px : ℤ))
  let min_y := max 0 (min (satI32 (rustRound (pixels_per_point * clip_rect.min_y))) (height_px : ℤ))
  let max_x := max min_x (min (satI32 (rustRound (pixels_per_point * clip_rect.max_x))) (width_px : ℤ))
  let max_y := max min_y (min (satI32 (rustRound (pixels_per_point * clip_rect.max_y))) (height_px : ℤ))
  (min_x, min_y, max_x, max_y)

/-- An opaque `glow::Texture` handle (`NonZeroU32` in glow; the numeric value
is irrelevant, only identity matters). -/
abbrev GlTexture := ℕ

/-- `egui::TextureId`: `Managed(u64)` (toolkit namespace) or `User(u64)`
(host / native namespace). -/
inductive TextureId where
  | managed (id : ℕ)
  | user (id : ℕ)
deriving DecidableEq, Repr

/-- One observable graphics-API side effect of a Painter operation.
Fixed-pipeline-state calls that are neither draws, uploads, deletions nor
diagnostics are collapsed into the markers `prepareState` / `unbindBuffers`
/ `texParameter`. -/
inductive GlOp where
  | createTexture (t : GlTexture)
  | deleteTexture (t : GlTexture)
  | deleteProgram (p : ℕ)
  | deleteBuffer (b : ℕ)
  | bindTexture (t : GlTexture)
  /-- `bind_buffer(ARRAY_BUFFER, vbo)` + `buffer_data_u8_slice(vertices, STREAM_DRAW)` -/
  | bufferDataVertices (byteLen : ℕ)
  /-- `bind_buffer(ELEMENT_ARRAY_BUFFER, ..)` + `buffer_data_u8_slice(indices, STREAM_DRAW)` -/
  | bufferDataIndices (byteLen : ℕ)
  | drawElements (indexCount : ℕ)
  | texParameter
  | texImage2D (w h : ℕ)
  | texSubImage2D (x y w h : ℕ)
  | generateMipmap
  | scissor (x y w h : ℤ)
  | viewport (x y w h : ℤ)
  /-- `log::warn!("Failed to find texture {:?}", ..)` in `paint_mesh` -/
  | warnMissingTexture (id : TextureId)
  /-- `log::warn!("Unsupported render callback ..")` in `paint_primitives` -/
  | warnUnsupportedCallback
  /-- invocation of a user `CallbackFn` (its own GL calls are external) -/
  | callbackInvoked
  /-- the fixed-state block of `prepare_painting` (scissor/blend/viewport
  enables, program + uniforms, vao + element buffer binding) -/
  | prepareState
  /-- end of `paint_primitives`: vao unbind, element buffer unbind, scissor disable -/
  | unbindBuffers
deriving DecidableEq, Repr

/-- Which Rust panic fired (each `assert!`/`assert_eq!`/`clamp` site). -/
inductive PanicKind where
  /-- `assert_not_destroyed`: "the egui glow has already been destroyed!" -/
  | destroyedAssert
  /-- `set_texture`: `assert_eq!(width * height, pixels.len())` -/
  | texelCountMismatch
  /-- `upload_texture_srgb`: `assert_eq!(data.len(), w * h * 4)` -/
  | dataLenMismatch
  /-- `upload_texture_srgb`: `assert!(w <= max_texture_side && h <= ..)` -/
  | oversizedTexture
  /-- `Ord::clamp` called with `min > max` in `set_clip_rect` -/
  | clampPanic
deriving DecidableEq, Repr

/-- Lookup in the texture table (`HashMap<TextureId, glow::Texture>`),
modelled as an association list with unique keys. -/
def lookupTex : List (TextureId × GlTexture) → TextureId → Option GlTexture
  | [], _ => none
  | (k, v) :: rest, id => if k = id then some v else lookupTex rest id

/-- `HashMap::insert` semantics: replace the binding if the key is present,
otherwise add it. -/
def insertTex : List (TextureId × GlTexture) → TextureId → GlTexture →
    List (TextureId × GlTexture)
  | [], id, t => [(id, t)]
  | (k, v) :: rest, id, t =>
    if k = id then (id, t) :: rest else (k, v) :: insertTex rest id t

/-- `HashMap::remove` semantics (keys are unique, so filtering is removal). -/
def removeTex (l : List (TextureId × GlTexture)) (id : TextureId) :
    List (TextureId × GlTexture) :=
  l.filter fun kv => kv.1 ≠ id

/-- The `Painter` struct (`painter.rs` lines 82-106), restricted to the
fields the claims are about. `gl`, the uniform locations, `vao` and the
capability flags that only feed string/format selection are omitted;
`is_webgl_1` and `srgb_textures` select the internal texture format, which
the `texImage2D` trace op does not record. `glTextureCounter` models the GL
context's allocation of fresh handles by `gl.create_texture()`. -/
structure Painter where
  max_texture_side : ℕ
  program : ℕ
  vbo : ℕ
  element_array_buffer : ℕ
  textures : List (TextureId × GlTexture)
  next_native_tex_id : ℕ
  textures_to_destroy : List GlTexture
  destroyed : Bool
  glTextureCounter : ℕ
deriving DecidableEq, Repr

/-- The field initialization done by `Painter::new` (`painter.rs` lines
255-271): empty texture table, `next_native_tex_id = 1 << 32`, empty
pending-deletion list, `destroyed = false`. The GL handles created during
construction are parameters. -/
def Painter.mkNew (maxSide program vbo ebo glCounter : ℕ) : Painter :=
  { max_texture_side := maxSide
    program := program
    vbo := vbo
    element_array_buffer := ebo
    textures := []
    next_native_tex_id := 2 ^ 32
    textures_to_destroy := []
    destroyed := false
    glTextureCounter := glCounter }

/-- `Painter::assert_not_destroyed` (`painter.rs` lines 723-725). -/
def Painter.assert_not_destroyed (p : Painter) : Except PanicKind Unit :=
  if p.destroyed then .error .destroyedAssert else .ok ()

/-- `egui::TextureFilter` -/
inductive TextureFilter where
  | nearest
  | linear
deriving DecidableEq, Repr

/-- `egui::TextureWrapMode` -/
inductive TextureWrapMode where
  | clampToEdge
  | repeat
  | mirroredRepeat
deriving DecidableEq, Repr

/-- `egui::TextureOptions` -/
structure TextureOptions where
  magnification : TextureFilter
  minification : TextureFilter
  wrap_mode : TextureWrapMode
  mipmap_mode : Option TextureFilter
deriving DecidableEq, Repr

/-- `egui::ColorImage` as consumed by `set_texture`: its declared size and
the length of its `pixels` vector (each pixel is a 4-byte `Color32`). -/
structure ColorImage where
  width : ℕ
  height : ℕ
  pixelCount : ℕ
deriving DecidableEq, Repr

/-- `egui::epaint::ImageDelta`: optional sub-region position, image data
(the only `ImageData` variant is `Color`), and sampling options. -/
structure ImageDelta where
  pos : Option (ℕ × ℕ)
  image : ColorImage
  options : TextureOptions
deriving DecidableEq, Repr

/-- `Painter::upload_texture_srgb` (`painter.rs` lines 534-632). `dataLen`
is `data.len()` in bytes. Emits the four `tex_parameter_i32` calls, then
either a sub-image or full-image upload, then optional mipmap generation.
Mutates no Painter field. -/
def Painter.upload_texture_srgb (p : Painter) (pos : Option (ℕ × ℕ)) (w h : ℕ)
    (options : TextureOptions) (dataLen : ℕ) : Except PanicKind (List GlOp) :=
  if dataLen ≠ w * h * 4 then .error .dataLenMismatch
  else if ¬ (w ≤ p.max_texture_side ∧ h ≤ p.max_texture_side) then .error .oversizedTexture
  else .ok
    ([.texParameter, .texParameter, .texParameter, .texParameter] ++
      (match pos with
       | some (x, y) => [GlOp.texSubImage2D x y w h]
       | none => [GlOp.texImage2D w h]) ++
      (if options.mipmap_mode.isSome then [GlOp.generateMipmap] else []))

/-- `Painter::set_texture` (`painter.rs` lines 506-532): assert not
destroyed; `textures.entry(tex_id).or_insert_with(create_texture)`; bind;
`assert_eq!(width * height, pixels.len())`; upload (`data` is the pixel
vector cast to bytes, so `data.len() = 4 * pixelCount`). -/
def Painter.set_texture (p : Painter) (tex_id : TextureId) (delta : ImageDelta) :
    Except PanicKind (Painter × List GlOp) := do
  let _ ← p.assert_not_destroyed
  let (glow_texture, p1, createOps) :=
    match lookupTex p.textures tex_id with
    | some t => (t, p, ([] : List GlOp))
    | none =>
      let t := p.glTextureCounter
      (t, { p with glTextureCounter := p.glTextureCounter + 1,
                   textures := insertTex p.textures tex_id t },
       [GlOp.createTexture t])
  if delta.image.width * delta.image.height ≠ delta.image.pixelCount then
    .error .texelCountMismatch
  else do
    let uploadOps ← p1.upload_texture_srgb delta.pos delta.image.width delta.image.height
      delta.options (4 * delta.image.pixelCount)
    .ok (p1, createOps ++ [GlOp.bindTexture glow_texture] ++ uploadOps)

/-- `Painter::free_texture` (`painter.rs` lines 634-638). Note: it has no
`assert_not_destroyed` call, so it never panics. -/
def Painter.free_texture (p : Painter) (tex_id : TextureId) : Painter × List GlOp :=
  match lookupTex p.textures tex_id with
  | some old_tex =>
    ({ p with textures := removeTex p.textures tex_id }, [GlOp.deleteTexture old_tex])
  | none => (p, [])

/-- `Painter::texture` (`painter.rs` lines 641-643). -/
def Painter.texture (p : Painter) (texture_id : TextureId) : Option GlTexture :=
  lookupTex p.textures texture_id

/-- `Painter::register_native_texture` (`painter.rs` lines 645-651).
`self.next_native_tex_id += 1` is a `u64` increment, which wraps modulo
`2 ^ 64` (release-mode Rust semantics). -/
def Painter.register_native_texture (p : Painter) (native : GlTexture) :
    Except PanicKind (Painter × TextureId) := do
  let _ ← p.assert_not_destroyed
  let id := TextureId.user p.next_native_tex_id
  let p' : Painter :=
    { p with
      next_native_tex_id := (p.next_native_tex_id + 1) % 2 ^ 64
      textures := insertTex p.textures id native }
  .ok (p', id)

/-- `Painter::replace_native_texture` (`painter.rs` lines 653-657). Note:
no `assert_not_destroyed`, no GL calls; the displaced handle is pushed onto
`textures_to_destroy`. -/
def Painter.replace_native_texture (p : Painter) (id : TextureId) (replacing : GlTexture) :
    Painter × List GlOp :=
  match lookupTex p.textures id with
  | some old_tex =>
    ({ p with textures := insertTex p.textures id replacing,
              textures_to_destroy := p.textures_to_destroy ++ [old_tex] }, [])
  | none => ({ p with textures := insertTex p.textures id replacing }, [])

/-- `Painter::destroy_gl` (`painter.rs` lines 698-710): delete the program,
every table texture, both buffers, and every pending-deletion handle. -/
def Painter.destroy_gl (p : Painter) : List GlOp :=
  GlOp.deleteProgram p.program ::
    (p.textures.map fun kv => GlOp.deleteTexture kv.2) ++
      ([GlOp.deleteBuffer p.vbo, GlOp.deleteBuffer p.element_array_buffer] ++
        p.textures_to_destroy.map GlOp.deleteTexture)

/-- `Painter::destroy` (`painter.rs` lines 714-721): idempotent teardown;
only sets the `destroyed` flag (the table and pending list are not
emptied). -/
def Painter.destroy (p : Painter) : Painter × List GlOp :=
  if p.destroyed then (p, []) else ({ p with destroyed := true }, p.destroy_gl)

/-- `egui::epaint::Mesh` as consumed by `paint_mesh`: vertex count, index
count (triangle-list, `u32` indices) and the referenced texture id. A
`Vertex` is 20 bytes (two `f32` pairs + 4 color bytes), an index 4 bytes. -/
structure Mesh where
  verticesLen : ℕ
  indicesLen : ℕ
  texture_id : TextureId
deriving DecidableEq, Repr

/-- An `egui::PaintCallback` as consumed by `paint_primitives`:
`rectIsPositive` is `callback.rect.is_positive()`, `viewportPx` the pixel
viewport computed by `PaintCallbackInfo::viewport_in_pixels` (egui code
outside this crate), and `isCallbackFn` whether the payload downcasts to
`egui_glow::CallbackFn`. -/
structure PaintCallback where
  rectIsPositive : Bool
  viewportPx : ℤ × ℤ × ℤ × ℤ
  isCallbackFn : Bool
deriving DecidableEq, Repr

/-- `egui::epaint::Primitive`. -/
inductive Primitive where
  | mesh (m : Mesh)
  | callback (cb : PaintCallback)
deriving DecidableEq, Repr

/-- `egui::ClippedPrimitive`. -/
structure ClippedPrimitive where
  clip_rect : Rect
  primitive : Primitive
deriving DecidableEq, Repr

/-- `Painter::paint_mesh` (`painter.rs` lines 467-502): if the texture id is
bound, upload both buffers, bind the texture and draw; otherwise emit one
warning and nothing else. (The `debug_assert!(mesh.is_valid())` is compiled
out in release builds and is not modelled.) Mutates no Painter field. -/
def Painter.paint_mesh (p : Painter) (mesh : Mesh) : List GlOp :=
  match p.texture mesh.texture_id with
  | some texture =>
    [.bufferDataVertices (mesh.verticesLen * 20),
     .bufferDataIndices (mesh.indicesLen * 4),
     .bindTexture texture,
     .drawElements mesh.indicesLen]
  | none => [.warnMissingTexture mesh.texture_id]

/-- The body of the `paint_primitives` loop for one `ClippedPrimitive`
(`painter.rs` lines 407-454): apply the scissor transform, then either draw
the mesh or run the callback (with viewport set before and the full
`prepare_painting` state restore after). -/
def Painter.paint_primitive (p : Painter) (width_px height_px : ℕ) (pixels_per_point : ℚ)
    (cp : ClippedPrimitive) : Except PanicKind (List GlOp) :=
  match set_clip_rect width_px height_px pixels_per_point cp.clip_rect with
  | none => .error .clampPanic
  | some sc =>
    .ok (GlOp.scissor sc.x sc.y sc.width sc.height ::
      match cp.primitive with
      | .mesh m => p.paint_mesh m
      | .callback cb =>
        if cb.rectIsPositive then
          GlOp.viewport cb.viewportPx.1 cb.viewportPx.2.1 cb.viewportPx.2.2.1
              cb.viewportPx.2.2.2 ::
            (if cb.isCallbackFn then [GlOp.callbackInvoked]
             else [GlOp.warnUnsupportedCallback]) ++
            [GlOp.prepareState]
        else [])

/-- The `for` loop of `paint_primitives`, in list order. The Painter's own
fields are never mutated by the loop (only GL state is), so the state `p`
is threaded unchanged. -/
def Painter.paintLoop (p : Painter) (width_px height_px : ℕ) (pixels_per_point : ℚ) :
    List ClippedPrimitive → Except PanicKind (List GlOp)
  | [] => .ok []
  | cp :: rest => do
    let ops ← p.paint_primitive width_px height_px pixels_per_point cp
    let opsRest ← p.paintLoop width_px height_px pixels_per_point rest
    .ok (ops ++ opsRest)

/-- `Painter::paint_primitives` (`painter.rs` lines 396-464): assert not
destroyed, `prepare_painting`, the per-primitive loop, then unbind and
disable scissoring. Returns the unchanged Painter. -/
def Painter.paint_primitives (p : Painter) (width_px height_px : ℕ) (pixels_per_point : ℚ)
    (clipped_primitives : List ClippedPrimitive) : Except PanicKind (Painter × List GlOp) := do
  let _ ← p.assert_not_destroyed
  let ops ← p.paintLoop width_px height_px pixels_per_point clipped_primitives
  .ok (p, GlOp.prepareState :: ops ++ [GlOp.unbindBuffers])

/-- One externally invocable mutating Painter operation, for stating
properties over arbitrary call sequences. -/
inductive PainterOp where
  | setTextureOp (id : TextureId) (delta : ImageDelta)
  | freeTextureOp (id : TextureId)
  | paintOp (width_px height_px : ℕ) (pixels_per_point : ℚ) (prims : List ClippedPrimitive)
  | registerNativeOp (native : GlTexture)
  | replaceNativeOp (id : TextureId) (native : GlTexture)
  | destroyOp
deriving DecidableEq, Repr

/-- Dispatch one `PainterOp`; returns the new Painter, its GL-op trace, and
the `TextureId` returned by `register_native_texture` (if that was the
operation). -/
def Painter.step (p : Painter) :
    PainterOp → Except PanicKind (Painter × List GlOp × Option TextureId)
  | .setTextureOp id delta => (p.set_texture id delta).map fun r => (r.1, r.2, none)
  | .freeTextureOp id => .ok ((p.free_texture id).1, (p.free_texture id).2, none)
  | .paintOp w h ppp prims => (p.paint_primitives w h ppp prims).map fun r => (r.1, r.2, none)
  | .registerNativeOp t => (p.register_native_texture t).map fun r => (r.1, [], some r.2)
  | .replaceNativeOp id t =>
    .ok ((p.replace_native_texture id t).1, (p.replace_native_texture id t).2, none)
  | .destroyOp => .ok (p.destroy.1, p.destroy.2, none)

/-- Run a sequence of operations, collecting the texture ids returned by
`register_native_texture` in call order. A panic stops the run. -/
def Painter.runOps (p : Painter) :
    List PainterOp → Except PanicKind (Painter × List TextureId)
  | [] => .ok (p, [])
  | op :: rest => do
    let (p', _, ret) ← p.step op
    let (p'', ids) ← p'.runOps rest
    .ok (p'', ret.toList ++ ids)

/-- Number of draw calls in a trace. -/
def countDraws (ops : List GlOp) : ℕ :=
  ops.countP fun o => match o with | .drawElements _ => true | _ => false

/-- Number of vertex/index buffer uploads in a trace. -/
def countBufferUploads (ops : List GlOp) : ℕ :=
  ops.countP fun o =>
    match o with | .bufferDataVertices _ => true | .bufferDataIndices _ => true | _ => false

/-- Number of diagnostic warnings in a trace. -/
def countWarns (ops : List GlOp) : ℕ :=
  ops.countP fun o =>
    match o with | .warnMissingTexture _ => true | .warnUnsupportedCallback => true | _ => false

/-- Number of `create_texture` calls in a trace. -/
def countCreates (ops : List GlOp) : ℕ :=
  ops.countP fun o => match o with | .createTexture _ => true | _ => false

/-- The numeric value carried by a `TextureId`. -/
def TextureId.natVal : TextureId → ℕ
  | .managed n => n
  | .user n => n

/-- Whether an id is in the host (`User`) namespace with value at least the
initial high offset `2^32` used by `next_native_tex_id`. -/
def TextureId.isUserAboveOffset : TextureId → Bool
  | .user n => decide (2 ^ 32 ≤ n)
  | .managed _ => false

/-- A concrete destroyed Painter holding one texture binding
(`Managed 0 ↦ 7`), reached from `Painter::new` by one
`replace_native_texture` call followed by `destroy`. -/
def destroyedPainterEx : Painter :=
  (((Painter.mkNew 4096 1 2 3 10).replace_native_texture (TextureId.managed 0) 7).1.destroy).1

/-- A concrete live Painter with one binding (`Managed 0 ↦ 7`) and one
pending-deletion handle (9), reached from `Painter::new` by two
`replace_native_texture` calls. -/
def painterEx : Painter :=
  (((Painter.mkNew 4096 1 2 3 10).replace_native_texture
      (TextureId.managed 0) 9).1.replace_native_texture (TextureId.managed 0) 7).1

theorem u32AsI32_eq_of_lt (w : ℕ) (hw : w < 2 ^ 31) : u32AsI32 w = (w : ℤ) := by
  unfold u32AsI32
  rw [Nat.mod_eq_of_lt (by omega)]
  rw [if_pos hw]

theorem clipBounds_eq_clampedBounds (W H : ℕ) (ppp : ℚ) (r : Rect)
    (hW : W < 2 ^ 31) (hH : H < 2 ^ 31) :
    clipBounds W H ppp r = some (clampedBounds W H ppp r) := by
  simp only [clipBounds, clampedBounds, rustClamp,
    u32AsI32_eq_of_lt W hW, u32AsI32_eq_of_lt H hH]
  simp only [Option.pure_def, Option.bind_eq_bind]
  rw [if_pos (show (0:ℤ) ≤ (W:ℤ) by omega), Option.some_bind,
      if_pos (show (0:ℤ) ≤ (H:ℤ) by omega), Option.some_bind,
      if_pos (show max 0 (min (satI32 (rustRound (ppp * r.min_x))) (W:ℤ)) ≤ (W:ℤ) by omega),
      Option.some_bind,
      if_pos (show max 0 (min (satI32 (rustRound (ppp * r.min_y))) (H:ℤ)) ≤ (H:ℤ) by omega),
      Option.some_bind]

theorem set_clip_rect_eq_of_lt (W H : ℕ) (ppp : ℚ) (r : Rect)
    (hW : W < 2 ^ 31) (hH : H < 2 ^ 31) :
    set_clip_rect W H ppp r =
      some ⟨(clampedBounds W H ppp r).1,
            (H : ℤ) - (clampedBounds W H ppp r).2.2.2,
            (clampedBounds W H ppp r).2.2.1 - (clampedBounds W H ppp r).1,
            (clampedBounds W H ppp r).2.2.2 - (clampedBounds W H ppp r).2.1⟩ := by
  simp only [set_clip_rect, clipBounds_eq_clampedBounds W H ppp r hW hH,
    u32AsI32_eq_of_lt H hH, clampedBounds, Option.pure_def, Option.bind_eq_bind,
    Option.some_bind]

theorem clampedBounds_le (W H : ℕ) (ppp : ℚ) (r : Rect) :
    0 ≤ (clampedBounds W H ppp r).1 ∧
    (clampedBounds W H ppp r).1 ≤ (clampedBounds W H ppp r).2.2.1 ∧
    (clampedBounds W H ppp r).2.2.1 ≤ (W : ℤ) ∧
    0 ≤ (clampedBounds W H ppp r).2.1 ∧
    (clampedBounds W H ppp r).2.1 ≤ (clampedBounds W H ppp r).2.2.2 ∧
    (clampedBounds W H ppp r).2.2.2 ≤ (H : ℤ) := by
  simp only [clampedBounds]
  refine ⟨?_, ?_, ?_, ?_, ?_, ?_⟩ <;> omega

/-- **C2** (amended: target sizes are restricted to `W < 2^31` and
`H < 2^31`, i.e. representable as a non-negative `i32`; for larger `u32`
sizes the `u32 as i32` cast is negative and `Ord::clamp` panics, see the
counterexample). For every logical clip rectangle, density `d > 0` and such
a target size, `set_clip_rect` computes clamped coordinates with
`0 ≤ min_x ≤ max_x ≤ W` and `0 ≤ min_y ≤ max_y ≤ H`, and emits the scissor
rectangle built from them, whose width and height are non-negative. -/
theorem scissor_rect_in_bounds (W H : ℕ) (ppp : ℚ) (r : Rect) (_hppp : 0 < ppp)
    (hW : W < 2 ^ 31) (hH : H < 2 ^ 31) :
    clipBounds W H ppp r = some (clampedBounds W H ppp r) ∧
    0 ≤ (clampedBounds W H ppp r).1 ∧
    (clampedBounds W H ppp r).1 ≤ (clampedBounds W H ppp r).2.2.1 ∧
    (clampedBounds W H ppp r).2.2.1 ≤ (W : ℤ) ∧
    0 ≤ (clampedBounds W H ppp r).2.1 ∧
    (clampedBounds W H ppp r).2.1 ≤ (clampedBounds W H ppp r).2.2.2 ∧
    (clampedBounds W H ppp r).2.2.2 ≤ (H : ℤ) ∧
    set_clip_rect W H ppp r =
      some ⟨(clampedBounds W H ppp r).1,
            (H : ℤ) - (clampedBounds W H ppp r).2.2.2,
            (clampedBounds W H ppp r).2.2.1 - (clampedBounds W H ppp r).1,
            (clampedBounds W H ppp r).2.2.2 - (clampedBounds W H ppp r).2.1⟩ ∧
    0 ≤ (clampedBounds W H ppp r).2.2.1 - (clampedBounds W H ppp r).1 ∧
    0 ≤ (clampedBounds W H ppp r).2.2.2 - (clampedBounds W H ppp r).2.1 := by
  obtain ⟨h1, h2, h3, h4, h5, h6⟩ := clampedBounds_le W H ppp r
  exact ⟨clipBounds_eq_clampedBounds W H ppp r hW hH, h1, h2, h3, h4, h5, h6,
    set_clip_rect_eq_of_lt W H ppp r hW hH, by omega, by omega⟩

/-- Witness for `scissor_rect_in_bounds` at clip rect (10.4, 5.6)-(20.2, 30.9),
density 2, target 100×100. -/
theorem scissor_rect_in_bounds_witness :
    clipBounds 100 100 2 ⟨10.4, 5.6, 20.2, 30.9⟩ =
      some (clampedBounds 100 100 2 ⟨10.4, 5.6, 20.2, 30.9⟩) ∧
    0 ≤ (clampedBounds 100 100 2 ⟨10.4, 5.6, 20.2, 30.9⟩).1 ∧
    (clampedBounds 100 100 2 ⟨10.4, 5.6, 20.2, 30.9⟩).1 ≤
      (clampedBounds 100 100 2 ⟨10.4, 5.6, 20.2, 30.9⟩).2.2.1 ∧
    (clampedBounds 100 100 2 ⟨10.4, 5.6, 20.2, 30.9⟩).2.2.1 ≤ ((100 : ℕ) : ℤ) ∧
    0 ≤ (clampedBounds 100 100 2 ⟨10.4, 5.6, 20.2, 30.9⟩).2.1 ∧
    (clampedBounds 100 100 2 ⟨10.4, 5.6, 20.2, 30.9⟩).2.1 ≤
      (clampedBounds 100 100 2 ⟨10.4, 5.6, 20.2, 30.9⟩).2.2.2 ∧
    (clampedBounds 100 100 2 ⟨10.4, 5.6, 20.2, 30.9⟩).2.2.2 ≤ ((100 : ℕ) : ℤ) ∧
    set_clip_rect 100 100 2 ⟨10.4, 5.6, 20.2, 30.9⟩ =
      some ⟨(clampedBounds 100 100 2 ⟨10.4, 5.6, 20.2, 30.9⟩).1,
            ((100 : ℕ) : ℤ) - (clampedBounds 100 100 2 ⟨10.4, 5.6, 20.2, 30.9⟩).2.2.2,
            (clampedBounds 100 100 2 ⟨10.4, 5.6, 20.2, 30.9⟩).2.2.1 -
              (clampedBounds 100 100 2 ⟨10.4, 5.6, 20.2, 30.9⟩).1,
            (clampedBounds 100 100 2 ⟨10.4, 5.6, 20.2, 30.9⟩).2.2.2 -
              (clampedBounds 100 100 2 ⟨10.4, 5.6, 20.2, 30.9⟩).2.1⟩ ∧
    0 ≤ (clampedBounds 100 100 2 ⟨10.4, 5.6, 20.2, 30.9⟩).2.2.1 -
          (clampedBounds 100 100 2 ⟨10.4, 5.6, 20.2, 30.9⟩).1 ∧
    0 ≤ (clampedBounds 100 100 2 ⟨10.4, 5.6, 20.2, 30.9⟩).2.2.2 -
          (clampedBounds 100 100 2 ⟨10.4, 5.6, 20.2, 30.9⟩).2.1 :=
  scissor_rect_in_bounds 100 100 2 ⟨10.4, 5.6, 20.2, 30.9⟩ (by norm_num)
    (by norm_num) (by norm_num)

/-- **C2 counterexample**: the claim quantifies over *every* target size.
At target width `W = 2^31` (a legal `u32`), `width_px as i32` is negative,
`clip_min_x.clamp(0, width_px as i32)` has `min > max` and panics, so no
scissor rectangle is produced at all. -/
theorem scissor_rect_in_bounds_cex :
    clipBounds (2 ^ 31) 100 2 ⟨0, 0, 10, 10⟩ = none ∧
    set_clip_rect (2 ^ 31) 100 2 ⟨0, 0, 10, 10⟩ = none := by
  constructor <;>
    · simp only [set_clip_rect, clipBounds, rustRound, satI32, u32AsI32, rustClamp]
      norm_num

/-- **C3** (amended: the general description holds for target sizes below
`2^31`; for larger `u32` sizes the code panics in `Ord::clamp` instead of
computing the described rectangle, see the counterexample). For such sizes
`set_clip_rect` computes exactly the spec's algorithm (scale by density,
round each corner independently to nearest, clamp min-x/min-y to
`[0, target]`, max-x to `[min_x, W]`, max-y to `[min_y, H]`, y-offset
`H - max_y`, width `max_x - min_x`, height `max_y - min_y`), and on clip
rect (10.4, 5.6)-(20.2, 30.9) at density 2 and target 100×100 it yields
x-offset 21, y-offset 38, width 19, height 51. -/
theorem scissor_rect_algorithm :
    (∀ (W H : ℕ) (ppp : ℚ) (r : Rect), W < 2 ^ 31 → H < 2 ^ 31 →
      set_clip_rect W H ppp r = some (scissorSpecRect W H ppp r)) ∧
    set_clip_rect 100 100 2 ⟨10.4, 5.6, 20.2, 30.9⟩ = some ⟨21, 38, 19, 51⟩ := by
  constructor
  · intro W H ppp r hW hH
    rw [set_clip_rect_eq_of_lt W H ppp r hW hH]
    simp only [clampedBounds, scissorSpecRect, satI32, Option.some.injEq,
      ScissorRect.mk.injEq]
    refine ⟨?_, ?_, ?_, ?_⟩ <;> omega
  · simp only [set_clip_rect, clipBounds, rustRound, satI32, u32AsI32, rustClamp]
    norm_num

/-- Witness for `scissor_rect_algorithm` at a concrete input. -/
theorem scissor_rect_algorithm_witness :
    (100 : ℕ) < 2 ^ 31 ∧
    set_clip_rect 100 100 2 ⟨10.4, 5.6, 20.2, 30.9⟩ =
      some (scissorSpecRect 100 100 2 ⟨10.4, 5.6, 20.2, 30.9⟩) :=
  ⟨by norm_num,
   scissor_rect_algorithm.1 100 100 2 ⟨10.4, 5.6, 20.2, 30.9⟩ (by norm_num) (by norm_num)⟩

/-- **C3 counterexample**: at target height `H = 2^31` (a legal `u32`) the
code panics in `Ord::clamp` and produces nothing, while the algorithm as
described by the claim yields the rectangle `⟨0, 2^31 - 10, 10, 10⟩`. -/
theorem scissor_rect_algorithm_cex :
    set_clip_rect 100 (2 ^ 31) 1 ⟨0, 0, 10, 10⟩ = none ∧
    scissorSpecRect 100 (2 ^ 31) 1 ⟨0, 0, 10, 10⟩ = ⟨0, 2 ^ 31 - 10, 10, 10⟩ := by
  constructor
  · simp only [set_clip_rect, clipBounds, rustRound, satI32, u32AsI32, rustClamp]
    norm_num
  · simp only [scissorSpecRect, rustRound]
    norm_num

theorem lookupTex_insertTex_self (l : List (TextureId × GlTexture)) (id : TextureId)
    (t : GlTexture) : lookupTex (insertTex l id t) id = some t := by
  induction l with
  | nil => simp [insertTex, lookupTex]
  | cons kv rest ih =>
    obtain ⟨k, v⟩ := kv
    by_cases hk : k = id
    · simp [insertTex, lookupTex, hk]
    · simp [insertTex, lookupTex, hk, ih]

theorem lookupTex_insertTex_other (l : List (TextureId × GlTexture)) (id other : TextureId)
    (t : GlTexture) (hne : other ≠ id) :
    lookupTex (insertTex l id t) other = lookupTex l other := by
  have hne' : ¬(id = other) := fun h => hne h.symm
  induction l with
  | nil => simp [insertTex, lookupTex, hne']
  | cons kv rest ih =>
    obtain ⟨k, v⟩ := kv
    simp only [insertTex]
    by_cases hk : k = id
    · rw [if_pos hk, hk]
      simp only [lookupTex, if_neg hne']
    · rw [if_neg hk]
      simp only [lookupTex, ih]

theorem lookupTex_removeTex_self (l : List (TextureId × GlTexture)) (id : TextureId) :
    lookupTex (removeTex l id) id = none := by
  induction l with
  | nil => simp [removeTex, lookupTex]
  | cons kv rest ih =>
    obtain ⟨k, v⟩ := kv
    by_cases hk : k = id
    · simpa [removeTex, lookupTex, hk] using ih
    · simpa [removeTex, lookupTex, hk] using ih

theorem lookupTex_removeTex_other (l : List (TextureId × GlTexture)) (id other : TextureId)
    (hne : other ≠ id) :
    lookupTex (removeTex l id) other = lookupTex l other := by
  induction l with
  | nil => simp [removeTex, lookupTex]
  | cons kv rest ih =>
    obtain ⟨k, v⟩ := kv
    by_cases hk : k = id
    · have hko : ¬(k = other) := fun h => hne (hk ▸ h.symm ▸ rfl)
      simp only [removeTex, List.filter] at ih ⊢
      rw [show (decide ¬(k, v).1 = id) = false by simp [hk]]
      simp only [lookupTex, if_neg hko]
      exact ih
    · by_cases hko : k = other
      · simp only [removeTex, List.filter] at ih ⊢
        rw [show (decide ¬(k, v).1 = id) = true by simp [hk]]
        simp only [lookupTex, if_pos hko]
      · simp only [removeTex, List.filter] at ih ⊢
        rw [show (decide ¬(k, v).1 = id) = true by simp [hk]]
        simp only [lookupTex, if_neg hko]
        exact ih

theorem removeTex_eq_of_lookup_none (l : List (TextureId × GlTexture)) (id : TextureId)
    (h : lookupTex l id = none) : removeTex l id = l := by
  induction l with
  | nil => simp [removeTex]
  | cons kv rest ih =>
    obtain ⟨k, v⟩ := kv
    by_cases hk : k = id
    · simp [lookupTex, hk] at h
    · simp only [lookupTex, if_neg hk] at h
      simp only [removeTex, List.filter] at ih ⊢
      rw [show (decide ¬(k, v).1 = id) = true by simp [hk]]
      rw [ih h]

theorem lookupTex_mem (l : List (TextureId × GlTexture)) (id : TextureId) (t : GlTexture)
    (h : lookupTex l id = some t) : (id, t) ∈ l := by
  induction l with
  | nil => simp [lookupTex] at h
  | cons kv rest ih =>
    obtain ⟨k, v⟩ := kv
    by_cases hk : k = id
    · rw [lookupTex, if_pos hk] at h
      rw [hk, Option.some_inj.mp h]
      exact List.mem_cons_self _ _
    · rw [lookupTex, if_neg hk] at h
      exact List.mem_cons_of_mem _ (ih h)

/-- **C1 counterexample**: the claim says *every* mutating operation —
including `free_texture` and `replace_native_texture` — panics on a
destroyed Painter. In the code neither of those two calls
`assert_not_destroyed`: on a concrete destroyed Painter, `free_texture`
removes the binding and issues the GL delete, and `replace_native_texture`
rebinds the id and defers the old handle, instead of panicking. -/
theorem destroyed_guard_cex :
    destroyedPainterEx.destroyed = true ∧
    destroyedPainterEx.free_texture (TextureId.managed 0) =
      ({ destroyedPainterEx with textures := [] }, [GlOp.deleteTexture 7]) ∧
    destroyedPainterEx.replace_native_texture (TextureId.managed 0) 9 =
      ({ destroyedPainterEx with textures := [(TextureId.managed 0, 9)],
                                 textures_to_destroy := [7] }, []) := by
  decide

/-- **C1** (amended): on a destroyed Painter, `set_texture`,
`paint_primitives` and `register_native_texture` hit the
`assert_not_destroyed` fatal assertion; `free_texture` and
`replace_native_texture` do not check the flag and perform their operation
normally (the table is updated and the flag left set). -/
theorem destroyed_guard (p : Painter) (id : TextureId) (delta : ImageDelta)
    (W H : ℕ) (ppp : ℚ) (prims : List ClippedPrimitive) (t : GlTexture)
    (hp : p.destroyed = true) :
    p.set_texture id delta = .error .destroyedAssert ∧
    p.paint_primitives W H ppp prims = .error .destroyedAssert ∧
    p.register_native_texture t = .error .destroyedAssert ∧
    (p.free_texture id).1.textures = removeTex p.textures id ∧
    (p.free_texture id).1.destroyed = true ∧
    (p.replace_native_texture id t).1.textures = insertTex p.textures id t ∧
    (p.replace_native_texture id t).1.destroyed = true := by
  refine ⟨?_, ?_, ?_, ?_, ?_, ?_, ?_⟩
  · simp [Painter.set_texture, Painter.assert_not_destroyed, hp, Bind.bind, Except.bind]
  · simp [Painter.paint_primitives, Painter.assert_not_destroyed, hp, Bind.bind, Except.bind]
  · simp [Painter.register_native_texture, Painter.assert_not_destroyed, hp, Bind.bind,
      Except.bind]
  · unfold Painter.free_texture
    cases hl : lookupTex p.textures id with
    | some t' => simp
    | none => simp [removeTex_eq_of_lookup_none p.textures id hl]
  · unfold Painter.free_texture
    cases hl : lookupTex p.textures id <;> simp [hp]
  · unfold Painter.replace_native_texture
    cases hl : lookupTex p.textures id <;> simp
  · unfold Painter.replace_native_texture
    cases hl : lookupTex p.textures id <;> simp [hp]

/-- Witness for `destroyed_guard` on the concrete destroyed Painter. -/
theorem destroyed_guard_witness :
    destroyedPainterEx.set_texture (TextureId.managed 1)
        ⟨none, ⟨1, 1, 1⟩, ⟨.linear, .linear, .clampToEdge, none⟩⟩ = .error .destroyedAssert ∧
    destroyedPainterEx.paint_primitives 100 100 1 [] = .error .destroyedAssert ∧
    destroyedPainterEx.register_native_texture 5 = .error .destroyedAssert ∧
    (destroyedPainterEx.free_texture (TextureId.managed 1)).1.textures =
      removeTex destroyedPainterEx.textures (TextureId.managed 1) ∧
    (destroyedPainterEx.free_texture (TextureId.managed 1)).1.destroyed = true ∧
    (destroyedPainterEx.replace_native_texture (TextureId.managed 1) 5).1.textures =
      insertTex destroyedPainterEx.textures (TextureId.managed 1) 5 ∧
    (destroyedPainterEx.replace_native_texture (TextureId.managed 1) 5).1.destroyed = true :=
  destroyed_guard destroyedPainterEx (TextureId.managed 1)
    ⟨none, ⟨1, 1, 1⟩, ⟨.linear, .linear, .clampToEdge, none⟩⟩ 100 100 1 [] 5 (by decide)

theorem upload_error_kinds (p : Painter) (pos : Option (ℕ × ℕ)) (w h : ℕ)
    (options : TextureOptions) (dl : ℕ) (e : PanicKind)
    (h : p.upload_texture_srgb pos w h options dl = .error e) :
    e = .dataLenMismatch ∨ e = .oversizedTexture := by
  unfold Painter.upload_texture_srgb at h
  split at h
  · simp only [Except.error.injEq] at h
    exact Or.inl h.symm
  · split at h
    · simp only [Except.error.injEq] at h
      exact Or.inr h.symm
    · simp at h

theorem upload_ne_dataLen_of_eq (p : Painter) (pos : Option (ℕ × ℕ)) (w h : ℕ)
    (options : TextureOptions) (dl : ℕ) (hgood : dl = w * h * 4) :
    p.upload_texture_srgb pos w h options dl ≠ .error .dataLenMismatch := by
  unfold Painter.upload_texture_srgb
  rw [if_neg (by simp [hgood])]
  split <;> simp

theorem set_texture_error_kinds (p : Painter) (id : TextureId) (delta : ImageDelta)
    (e : PanicKind) (hp : p.destroyed = false)
    (hgoodD : delta.image.pixelCount = delta.image.width * delta.image.height)
    (h : p.set_texture id delta = .error e) :
    e = .oversizedTexture := by
  have harith : 4 * delta.image.pixelCount = delta.image.width * delta.image.height * 4 := by
    rw [hgoodD]; ring
  simp only [Painter.set_texture, Painter.assert_not_destroyed, hp, Bind.bind, Except.bind,
    Bool.false_eq_true, if_false] at h
  cases hl : lookupTex p.textures id <;> simp only [hl] at h <;>
    · rw [if_neg (by simp [hgoodD])] at h
      rcases hup : Painter.upload_texture_srgb _ delta.pos delta.image.width delta.image.height
          delta.options (4 * delta.image.pixelCount) with e' | v
      · rw [hup] at h
        simp only [Except.error.injEq] at h
        subst h
        rcases upload_error_kinds _ _ _ _ _ _ _ hup with h1 | h1
        · exact absurd hup (h1 ▸ upload_ne_dataLen_of_eq _ _ _ _ _ _ harith)
        · exact h1
      · rw [hup] at h
        simp at h

/-- **C4**: a texture upload of size `W×H` requires exactly `W*H*4` bytes of
pixel data. In `upload_texture_srgb` a differing byte length hits the
`assert_eq!(data.len(), w * h * 4)` fatal assertion, and a matching length
never does; through `set_texture` a pixel vector (4 bytes per pixel) whose
texel count differs from `W*H` hits the
`assert_eq!(width * height, pixels.len())` fatal assertion, and a matching
one triggers no length assertion (the only remaining panic is the
independent max-texture-side check). -/
theorem upload_length_contract (p : Painter) (pos : Option (ℕ × ℕ)) (w h : ℕ)
    (options : TextureOptions) (dataLen dataLen' : ℕ) (id : TextureId)
    (delta delta' : ImageDelta)
    (hp : p.destroyed = false)
    (hbad : dataLen ≠ w * h * 4) (hgood : dataLen' = w * h * 4)
    (hbadD : delta.image.pixelCount ≠ delta.image.width * delta.image.height)
    (hgoodD : delta'.image.pixelCount = delta'.image.width * delta'.image.height) :
    p.upload_texture_srgb pos w h options dataLen = .error .dataLenMismatch ∧
    p.upload_texture_srgb pos w h options dataLen' ≠ .error .dataLenMismatch ∧
    p.set_texture id delta = .error .texelCountMismatch ∧
    p.set_texture id delta' ≠ .error .texelCountMismatch ∧
    p.set_texture id delta' ≠ .error .dataLenMismatch := by
  have hbadD' : delta.image.width * delta.image.height ≠ delta.image.pixelCount :=
    fun hcontra => hbadD hcontra.symm
  refine ⟨?_, upload_ne_dataLen_of_eq p pos w h options dataLen' hgood, ?_, ?_, ?_⟩
  · simp [Painter.upload_texture_srgb, hbad]
  · simp only [Painter.set_texture, Painter.assert_not_destroyed, hp, Bind.bind, Except.bind,
      Bool.false_eq_true, if_false]
    cases hl : lookupTex p.textures id <;> simp [hl, hbadD']
  · intro hcontra
    exact absurd (set_texture_error_kinds p id delta' _ hp hgoodD hcontra) (by simp)
  · intro hcontra
    exact absurd (set_texture_error_kinds p id delta' _ hp hgoodD hcontra) (by simp)

/-- Witness for `upload_length_contract`: 1×1 uploads with 5 (bad) and
4 (good) bytes, and deltas with 2 (bad) and 1 (good) texels. -/
theorem upload_length_contract_witness :
    (Painter.mkNew 4096 1 2 3 10).upload_texture_srgb none 1 1
        ⟨.linear, .linear, .clampToEdge, none⟩ 5 = .error .dataLenMismatch ∧
    (Painter.mkNew 4096 1 2 3 10).upload_texture_srgb none 1 1
        ⟨.linear, .linear, .clampToEdge, none⟩ 4 ≠ .error .dataLenMismatch ∧
    (Painter.mkNew 4096 1 2 3 10).set_texture (TextureId.managed 0)
        ⟨none, ⟨1, 1, 2⟩, ⟨.linear, .linear, .clampToEdge, none⟩⟩ =
      .error .texelCountMismatch ∧
    (Painter.mkNew 4096 1 2 3 10).set_texture (TextureId.managed 0)
        ⟨none, ⟨1, 1, 1⟩, ⟨.linear, .linear, .clampToEdge, none⟩⟩ ≠
      .error .texelCountMismatch ∧
    (Painter.mkNew 4096 1 2 3 10).set_texture (TextureId.managed 0)
        ⟨none, ⟨1, 1, 1⟩, ⟨.linear, .linear, .clampToEdge, none⟩⟩ ≠
      .error .dataLenMismatch :=
  upload_length_contract (Painter.mkNew 4096 1 2 3 10) none 1 1
    ⟨.linear, .linear, .clampToEdge, none⟩ 5 4 (TextureId.managed 0)
    ⟨none, ⟨1, 1, 2⟩, ⟨.linear, .linear, .clampToEdge, none⟩⟩
    ⟨none, ⟨1, 1, 1⟩, ⟨.linear, .linear, .clampToEdge, none⟩⟩
    (by decide) (by decide) (by decide) (by decide) (by decide)

/-- **C8**: `free_texture` removes and deletes the bound handle when the id
is present, is a no-op when absent, and freeing twice equals freeing once
(the second call finds nothing and changes nothing). -/
theorem free_texture_idempotent (p p2 : Painter) (id : TextureId) (t : GlTexture)
    (hsome : lookupTex p.textures id = some t)
    (hnone : lookupTex p2.textures id = none) :
    p.free_texture id =
      ({ p with textures := removeTex p.textures id }, [GlOp.deleteTexture t]) ∧
    p2.free_texture id = (p2, []) ∧
    (p.free_texture id).1.free_texture id = ((p.free_texture id).1, []) ∧
    ((p.free_texture id).1.free_texture id).1 = (p.free_texture id).1 := by
  have h1 : p.free_texture id =
      ({ p with textures := removeTex p.textures id }, [GlOp.deleteTexture t]) := by
    unfold Painter.free_texture
    rw [hsome]
  have h3 : (p.free_texture id).1.free_texture id = ((p.free_texture id).1, []) := by
    rw [h1]
    unfold Painter.free_texture
    simp [lookupTex_removeTex_self]
  refine ⟨h1, ?_, h3, by rw [h3]⟩
  unfold Painter.free_texture
  rw [hnone]

/-- Witness for `free_texture_idempotent` on concrete Painters. -/
theorem free_texture_idempotent_witness :
    painterEx.free_texture (TextureId.managed 0) =
      ({ painterEx with textures := removeTex painterEx.textures (TextureId.managed 0) },
       [GlOp.deleteTexture 7]) ∧
    (Painter.mkNew 4096 1 2 3 10).free_texture (TextureId.managed 0) =
      (Painter.mkNew 4096 1 2 3 10, []) ∧
    (painterEx.free_texture (TextureId.managed 0)).1.free_texture (TextureId.managed 0) =
      ((painterEx.free_texture (TextureId.managed 0)).1, []) ∧
    ((painterEx.free_texture (TextureId.managed 0)).1.free_texture (TextureId.managed 0)).1 =
      (painterEx.free_texture (TextureId.managed 0)).1 :=
  free_texture_idempotent painterEx (Painter.mkNew 4096 1 2 3 10) (TextureId.managed 0) 7
    (by decide) (by decide)

theorem upload_ok_no_create (p : Painter) (pos : Option (ℕ × ℕ)) (w h : ℕ)
    (options : TextureOptions) (dl : ℕ) (ops : List GlOp)
    (h : p.upload_texture_srgb pos w h options dl = .ok ops) : countCreates ops = 0 := by
  unfold Painter.upload_texture_srgb at h
  split at h
  · simp at h
  · split at h
    · simp at h
    · simp only [Except.ok.injEq] at h
      subst h
      rcases pos with _ | ⟨x, y⟩ <;> split <;>
        simp [countCreates, List.countP_append, List.countP_cons, List.countP_nil]

/-- **C9**: for an id already bound, `set_texture` reuses the existing
handle: the table is unchanged, no `create_texture` call happens; for an
absent id exactly one handle is created and bound to it; and the binding of
every other id is untouched. -/
theorem set_texture_bindings (p : Painter) (id other : TextureId) (delta : ImageDelta)
    (p' : Painter) (ops : List GlOp)
    (h : p.set_texture id delta = .ok (p', ops))
    (hother : other ≠ id) :
    (match lookupTex p.textures id with
     | some t => p'.textures = p.textures ∧ p'.texture id = some t ∧ countCreates ops = 0
     | none => p'.textures = insertTex p.textures id p.glTextureCounter ∧
               p'.texture id = some p.glTextureCounter ∧ countCreates ops = 1) ∧
    p'.texture other = p.texture other := by
  cases hd : p.destroyed with
  | true =>
    simp [Painter.set_texture, Painter.assert_not_destroyed, hd, Bind.bind, Except.bind] at h
  | false =>
    simp only [Painter.set_texture, Painter.assert_not_destroyed, hd, Bind.bind, Except.bind,
      Bool.false_eq_true, if_false] at h
    cases hl : lookupTex p.textures id with
    | some t =>
      simp only [hl] at h
      split at h
      · simp at h
      · rcases hup : p.upload_texture_srgb delta.pos delta.image.width delta.image.height
            delta.options (4 * delta.image.pixelCount) with e | v
        · rw [hup] at h
          simp at h
        · rw [hup] at h
          simp only [Except.ok.injEq, Prod.mk.injEq] at h
          obtain ⟨hp', hops⟩ := h
          subst hp'
          subst hops
          refine ⟨⟨rfl, ?_, ?_⟩, rfl⟩
          · simp [Painter.texture, hl]
          · simpa [countCreates, List.countP_cons] using
              upload_ok_no_create _ _ _ _ _ _ _ hup
    | none =>
      simp only [hl] at h
      split at h
      · simp at h
      · rcases hup : Painter.upload_texture_srgb _ delta.pos delta.image.width delta.image.height
            delta.options (4 * delta.image.pixelCount) with e | v
        · rw [hup] at h
          simp at h
        · rw [hup] at h
          simp only [Except.ok.injEq, Prod.mk.injEq] at h
          obtain ⟨hp', hops⟩ := h
          subst hp'
          subst hops
          refine ⟨⟨rfl, ?_, ?_⟩, ?_⟩
          · simp [Painter.texture, lookupTex_insertTex_self]
          · simpa [countCreates, List.countP_cons] using
              upload_ok_no_create _ _ _ _ _ _ _ hup
          · simp [Painter.texture, lookupTex_insertTex_other _ _ _ _ hother]

/-- Witness for `set_texture_bindings`: a fresh Painter uploads a 1×1
texture under an absent id, creating exactly one handle. -/
theorem set_texture_bindings_witness :
    (match lookupTex (Painter.mkNew 4096 1 2 3 10).textures (TextureId.managed 0) with
     | some t =>
       ({ Painter.mkNew 4096 1 2 3 10 with
          textures := [(TextureId.managed 0, 10)], glTextureCounter := 11 } : Painter).textures =
           (Painter.mkNew 4096 1 2 3 10).textures ∧
         ({ Painter.mkNew 4096 1 2 3 10 with
            textures := [(TextureId.managed 0, 10)],
            glTextureCounter := 11 } : Painter).texture (TextureId.managed 0) = some t ∧
         countCreates [GlOp.createTexture 10, GlOp.bindTexture 10, GlOp.texParameter,
           GlOp.texParameter, GlOp.texParameter, GlOp.texParameter, GlOp.texImage2D 1 1] = 0
     | none =>
       ({ Painter.mkNew 4096 1 2 3 10 with
          textures := [(TextureId.managed 0, 10)], glTextureCounter := 11 } : Painter).textures =
           insertTex (Painter.mkNew 4096 1 2 3 10).textures (TextureId.managed 0)
             (Painter.mkNew 4096 1 2 3 10).glTextureCounter ∧
         ({ Painter.mkNew 4096 1 2 3 10 with
            textures := [(TextureId.managed 0, 10)],
            glTextureCounter := 11 } : Painter).texture (TextureId.managed 0) =
           some (Painter.mkNew 4096 1 2 3 10).glTextureCounter ∧
         countCreates [GlOp.createTexture 10, GlOp.bindTexture 10, GlOp.texParameter,
           GlOp.texParameter, GlOp.texParameter, GlOp.texParameter, GlOp.texImage2D 1 1] = 1) ∧
    ({ Painter.mkNew 4096 1 2 3 10 with
       textures := [(TextureId.managed 0, 10)],
       glTextureCounter := 11 } : Painter).texture (TextureId.managed 1) =
      (Painter.mkNew 4096 1 2 3 10).texture (TextureId.managed 1) :=
  set_texture_bindings (Painter.mkNew 4096 1 2 3 10) (TextureId.managed 0) (TextureId.managed 1)
    ⟨none, ⟨1, 1, 1⟩, ⟨.linear, .linear, .clampToEdge, none⟩⟩
    { Painter.mkNew 4096 1 2 3 10 with
      textures := [(TextureId.managed 0, 10)], glTextureCounter := 11 }
    [GlOp.createTexture 10, GlOp.bindTexture 10, GlOp.texParameter, GlOp.texParameter,
     GlOp.texParameter, GlOp.texParameter, GlOp.texImage2D 1 1]
    (by rfl) (by decide)

/-- **C10**: `destroy` on a live Painter deletes the program, every table
handle, both buffers and every pending-deletion handle, and sets only the
`destroyed` flag: the table and pending list are not emptied (so `texture`
still answers), no other field changes, and a second `destroy` does
nothing. -/
theorem destroy_behavior (p : Painter) (kv : TextureId × GlTexture) (tp : GlTexture)
    (id : TextureId)
    (hp : p.destroyed = false) (hkv : kv ∈ p.textures) (htp : tp ∈ p.textures_to_destroy) :
    p.destroy = ({ p with destroyed := true }, p.destroy_gl) ∧
    GlOp.deleteProgram p.program ∈ p.destroy.2 ∧
    GlOp.deleteTexture kv.2 ∈ p.destroy.2 ∧
    GlOp.deleteBuffer p.vbo ∈ p.destroy.2 ∧
    GlOp.deleteBuffer p.element_array_buffer ∈ p.destroy.2 ∧
    GlOp.deleteTexture tp ∈ p.destroy.2 ∧
    (p.destroy.1).textures = p.textures ∧
    (p.destroy.1).textures_to_destroy = p.textures_to_destroy ∧
    (p.destroy.1).destroyed = true ∧
    (p.destroy.1).texture id = p.texture id ∧
    (p.destroy.1).destroy = (p.destroy.1, []) := by
  have h1 : p.destroy = ({ p with destroyed := true }, p.destroy_gl) := by
    unfold Painter.destroy
    rw [if_neg (by simp [hp])]
  refine ⟨h1, ?_, ?_, ?_, ?_, ?_, by rw [h1], by rw [h1], by rw [h1],
    by rw [h1]; simp [Painter.texture], ?_⟩
  · rw [h1]
    exact List.mem_cons_self _ _
  · rw [h1]
    refine List.mem_cons_of_mem _ (List.mem_append_left _ ?_)
    exact List.mem_map_of_mem _ hkv
  · rw [h1]
    refine List.mem_cons_of_mem _ (List.mem_append_right _ (List.mem_append_left _ ?_))
    simp
  · rw [h1]
    refine List.mem_cons_of_mem _ (List.mem_append_right _ (List.mem_append_left _ ?_))
    simp
  · rw [h1]
    refine List.mem_cons_of_mem _ (List.mem_append_right _ (List.mem_append_right _ ?_))
    exact List.mem_map_of_mem _ htp
  · rw [h1]
    unfold Painter.destroy
    simp

/-- Witness for `destroy_behavior` on the concrete Painter with one binding
and one pending handle. -/
theorem destroy_behavior_witness :
    painterEx.destroy = ({ painterEx with destroyed := true }, painterEx.destroy_gl) ∧
    GlOp.deleteProgram painterEx.program ∈ painterEx.destroy.2 ∧
    GlOp.deleteTexture (TextureId.managed 0, 7).2 ∈ painterEx.destroy.2 ∧
    GlOp.deleteBuffer painterEx.vbo ∈ painterEx.destroy.2 ∧
    GlOp.deleteBuffer painterEx.element_array_buffer ∈ painterEx.destroy.2 ∧
    GlOp.deleteTexture 9 ∈ painterEx.destroy.2 ∧
    (painterEx.destroy.1).textures = painterEx.textures ∧
    (painterEx.destroy.1).textures_to_destroy = painterEx.textures_to_destroy ∧
    (painterEx.destroy.1).destroyed = true ∧
    (painterEx.destroy.1).texture (TextureId.managed 0) =
      painterEx.texture (TextureId.managed 0) ∧
    (painterEx.destroy.1).destroy = (painterEx.destroy.1, []) :=
  destroy_behavior painterEx (TextureId.managed 0, 7) 9 (TextureId.managed 0)
    (by decide) (by decide) (by decide)

theorem paintLoop_cons (p : Painter) (W H : ℕ) (ppp : ℚ) (cp : ClippedPrimitive)
    (rest : List ClippedPrimitive) (ops1 ops2 : List GlOp)
    (h1 : p.paint_primitive W H ppp cp = .ok ops1)
    (h2 : p.paintLoop W H ppp rest = .ok ops2) :
    p.paintLoop W H ppp (cp :: rest) = .ok (ops1 ++ ops2) := by
  unfold Painter.paintLoop
  simp [Bind.bind, Except.bind, h1, h2]

theorem paintLoop_append (p : Painter) (W H : ℕ) (ppp : ℚ)
    (l1 l2 : List ClippedPrimitive) (ops1 ops2 : List GlOp)
    (h1 : p.paintLoop W H ppp l1 = .ok ops1)
    (h2 : p.paintLoop W H ppp l2 = .ok ops2) :
    p.paintLoop W H ppp (l1 ++ l2) = .ok (ops1 ++ ops2) := by
  induction l1 generalizing ops1 with
  | nil =>
    unfold Painter.paintLoop at h1
    simp only [Except.ok.injEq] at h1
    subst h1
    simpa using h2
  | cons cp rest ih =>
    unfold Painter.paintLoop at h1
    rcases hcp : p.paint_primitive W H ppp cp with e | opsA
    · rw [hcp] at h1
      simp [Bind.bind, Except.bind] at h1
    · rw [hcp] at h1
      rcases hrest : p.paintLoop W H ppp rest with e | opsB
      · rw [hrest] at h1
        simp [Bind.bind, Except.bind] at h1
      · rw [hrest] at h1
        simp only [Bind.bind, Except.bind, Except.ok.injEq] at h1
        subst h1
        rw [List.cons_append]
        rw [List.append_assoc]
        exact paintLoop_cons p W H ppp cp (rest ++ l2) opsA (opsB ++ ops2) hcp
          (ih opsB hrest)

/-- **C5**: a mesh whose texture id is not in the table produces zero draw
calls, zero buffer uploads and exactly one warning, the Painter state is
unchanged, and the primitives after it are painted exactly as they would
have been without it (`paint_primitives` continues, it does not abort). -/
theorem missing_texture_skips_draw (p : Painter) (W H : ℕ) (ppp : ℚ)
    (pre post : List ClippedPrimitive) (clip : Rect) (m : Mesh)
    (opsPre opsPost : List GlOp) (sc : ScissorRect)
    (hp : p.destroyed = false)
    (hm : p.texture m.texture_id = none)
    (hsc : set_clip_rect W H ppp clip = some sc)
    (hpre : p.paintLoop W H ppp pre = .ok opsPre)
    (hpost : p.paintLoop W H ppp post = .ok opsPost) :
    p.paint_mesh m = [GlOp.warnMissingTexture m.texture_id] ∧
    countDraws (p.paint_mesh m) = 0 ∧
    countBufferUploads (p.paint_mesh m) = 0 ∧
    countWarns (p.paint_mesh m) = 1 ∧
    p.paint_primitives W H ppp (pre ++ ⟨clip, .mesh m⟩ :: post) =
      .ok (p, GlOp.prepareState ::
        (opsPre ++ (GlOp.scissor sc.x sc.y sc.width sc.height ::
          GlOp.warnMissingTexture m.texture_id :: opsPost)) ++ [GlOp.unbindBuffers]) := by
  have hmesh : p.paint_mesh m = [GlOp.warnMissingTexture m.texture_id] := by
    unfold Painter.paint_mesh
    rw [hm]
  have hprim : p.paint_primitive W H ppp ⟨clip, .mesh m⟩ =
      .ok [GlOp.scissor sc.x sc.y sc.width sc.height,
           GlOp.warnMissingTexture m.texture_id] := by
    unfold Painter.paint_primitive
    rw [hsc]
    simp [hmesh]
  have hloop : p.paintLoop W H ppp (pre ++ ⟨clip, .mesh m⟩ :: post) =
      .ok (opsPre ++ ([GlOp.scissor sc.x sc.y sc.width sc.height,
        GlOp.warnMissingTexture m.texture_id] ++ opsPost)) :=
    paintLoop_append p W H ppp pre _ opsPre _ hpre
      (paintLoop_cons p W H ppp _ post _ opsPost hprim hpost)
  refine ⟨hmesh, by simp [hmesh, countDraws], by simp [hmesh, countBufferUploads],
    by simp [hmesh, countWarns], ?_⟩
  simp only [Painter.paint_primitives, Painter.assert_not_destroyed, hp, Bind.bind,
    Except.bind, Bool.false_eq_true, if_false, hloop, List.cons_append, List.nil_append]

theorem set_clip_rect_origin : set_clip_rect 100 100 1 ⟨0, 0, 0, 0⟩ = some ⟨0, 100, 0, 0⟩ := by
  simp only [set_clip_rect, clipBounds, rustRound, satI32, u32AsI32, rustClamp]
  norm_num

/-- Witness for `missing_texture_skips_draw`: a fresh Painter paints one
mesh referencing the never-uploaded id `Managed 5`. -/
theorem missing_texture_skips_draw_witness :
    (Painter.mkNew 4096 1 2 3 10).paint_mesh ⟨3, 3, TextureId.managed 5⟩ =
      [GlOp.warnMissingTexture (TextureId.managed 5)] ∧
    countDraws ((Painter.mkNew 4096 1 2 3 10).paint_mesh ⟨3, 3, TextureId.managed 5⟩) = 0 ∧
    countBufferUploads
      ((Painter.mkNew 4096 1 2 3 10).paint_mesh ⟨3, 3, TextureId.managed 5⟩) = 0 ∧
    countWarns ((Painter.mkNew 4096 1 2 3 10).paint_mesh ⟨3, 3, TextureId.managed 5⟩) = 1 ∧
    (Painter.mkNew 4096 1 2 3 10).paint_primitives 100 100 1
        ([] ++ ⟨⟨0, 0, 0, 0⟩, .mesh ⟨3, 3, TextureId.managed 5⟩⟩ :: []) =
      .ok (Painter.mkNew 4096 1 2 3 10, GlOp.prepareState ::
        ([] ++ (GlOp.scissor 0 100 0 0 ::
          GlOp.warnMissingTexture (TextureId.managed 5) :: [])) ++ [GlOp.unbindBuffers]) :=
  missing_texture_skips_draw (Painter.mkNew 4096 1 2 3 10) 100 100 1 [] []
    ⟨0, 0, 0, 0⟩ ⟨3, 3, TextureId.managed 5⟩ [] [] ⟨0, 100, 0, 0⟩
    (by decide) (by decide) set_clip_rect_origin (by rfl) (by rfl)

theorem set_texture_ok_cases (p : Painter) (id : TextureId) (delta : ImageDelta)
    (p' : Painter) (ops : List GlOp) (h : p.set_texture id delta = .ok (p', ops)) :
    p' = p ∨ p' = { p with textures := insertTex p.textures id p.glTextureCounter,
                           glTextureCounter := p.glTextureCounter + 1 } := by
  cases hd : p.destroyed with
  | true =>
    simp [Painter.set_texture, Painter.assert_not_destroyed, hd, Bind.bind, Except.bind] at h
  | false =>
    simp only [Painter.set_texture, Painter.assert_not_destroyed, hd, Bind.bind, Except.bind,
      Bool.false_eq_true, if_false] at h
    cases hl : lookupTex p.textures id with
    | some t =>
      simp only [hl] at h
      split at h
      · simp at h
      · rcases hup : p.upload_texture_srgb delta.pos delta.image.width delta.image.height
            delta.options (4 * delta.image.pixelCount) with e | v
        · rw [hup] at h
          simp at h
        · rw [hup] at h
          simp only [Except.ok.injEq, Prod.mk.injEq] at h
          exact Or.inl h.1.symm
    | none =>
      simp only [hl] at h
      split at h
      · simp at h
      · rcases hup : Painter.upload_texture_srgb _ delta.pos delta.image.width
            delta.image.height delta.options (4 * delta.image.pixelCount) with e | v
        · rw [hup] at h
          simp at h
        · rw [hup] at h
          simp only [Except.ok.injEq, Prod.mk.injEq] at h
          right
          rw [← h.1]

theorem paint_ok_eq (p : Painter) (W H : ℕ) (ppp : ℚ) (prims : List ClippedPrimitive)
    (q : Painter) (ops : List GlOp) (h : p.paint_primitives W H ppp prims = .ok (q, ops)) :
    q = p := by
  cases hd : p.destroyed with
  | true =>
    simp [Painter.paint_primitives, Painter.assert_not_destroyed, hd, Bind.bind,
      Except.bind] at h
  | false =>
    simp only [Painter.paint_primitives, Painter.assert_not_destroyed, hd, Bind.bind,
      Except.bind, Bool.false_eq_true, if_false] at h
    rcases hloop : p.paintLoop W H ppp prims with e | v
    · rw [hloop] at h
      simp at h
    · rw [hloop] at h
      simp only [Except.ok.injEq, Prod.mk.injEq] at h
      exact h.1.symm

theorem free_texture_state (p : Painter) (id : TextureId) :
    (p.free_texture id).1.next_native_tex_id = p.next_native_tex_id ∧
    (p.free_texture id).1.textures_to_destroy = p.textures_to_destroy ∧
    (p.free_texture id).1.destroyed = p.destroyed := by
  unfold Painter.free_texture
  cases hl : lookupTex p.textures id <;> simp

theorem replace_native_state (p : Painter) (id : TextureId) (t : GlTexture) :
    (p.replace_native_texture id t).1.next_native_tex_id = p.next_native_tex_id ∧
    (p.replace_native_texture id t).1.destroyed = p.destroyed ∧
    (p.replace_native_texture id t).1.textures_to_destroy.take
      p.textures_to_destroy.length = p.textures_to_destroy ∧
    (p.replace_native_texture id t).2 = [] := by
  unfold Painter.replace_native_texture
  cases hl : lookupTex p.textures id with
  | none => simp [List.take_length]
  | some old => simp [List.take_left]

theorem destroy_state (p : Painter) :
    p.destroy.1.next_native_tex_id = p.next_native_tex_id ∧
    p.destroy.1.textures = p.textures ∧
    p.destroy.1.textures_to_destroy = p.textures_to_destroy := by
  unfold Painter.destroy
  split <;> simp

theorem register_ok_inv (p : Painter) (t : GlTexture) (p' : Painter) (id' : TextureId)
    (h : p.register_native_texture t = .ok (p', id')) :
    id' = TextureId.user p.next_native_tex_id ∧
    p' = { p with next_native_tex_id := (p.next_native_tex_id + 1) % 2 ^ 64,
                  textures := insertTex p.textures (TextureId.user p.next_native_tex_id) t } := by
  cases hd : p.destroyed with
  | true =>
    simp [Painter.register_native_texture, Painter.assert_not_destroyed, hd, Bind.bind,
      Except.bind] at h
  | false =>
    simp only [Painter.register_native_texture, Painter.assert_not_destroyed, hd, Bind.bind,
      Except.bind, Bool.false_eq_true, if_false, Except.ok.injEq, Prod.mk.injEq] at h
    exact ⟨h.2.symm, h.1.symm⟩

theorem step_next (p : Painter) (op : PainterOp) (p' : Painter) (ops : List GlOp)
    (ret : Option TextureId) (h : p.step op = .ok (p', ops, ret)) :
    (ret = none ∧ p'.next_native_tex_id = p.next_native_tex_id) ∨
    (ret = some (TextureId.user p.next_native_tex_id) ∧
      p'.next_native_tex_id = (p.next_native_tex_id + 1) % 2 ^ 64) := by
  cases op with
  | setTextureOp id delta =>
    simp only [Painter.step] at h
    rcases hst : p.set_texture id delta with e | r
    · rw [hst] at h
      simp [Except.map] at h
    · rw [hst] at h
      simp only [Except.map, Except.ok.injEq, Prod.mk.injEq] at h
      obtain ⟨h1, _, h3⟩ := h
      left
      refine ⟨h3.symm, ?_⟩
      rw [← h1]
      rcases set_texture_ok_cases p id delta r.1 r.2 (by rw [hst]) with hq | hq <;> rw [hq]
  | freeTextureOp id =>
    simp only [Painter.step] at h
    simp only [Except.ok.injEq, Prod.mk.injEq] at h
    obtain ⟨h1, _, h3⟩ := h
    left
    refine ⟨h3.symm, ?_⟩
    rw [← h1]
    exact (free_texture_state p id).1
  | paintOp W H ppp prims =>
    simp only [Painter.step] at h
    rcases hpp : p.paint_primitives W H ppp prims with e | r
    · rw [hpp] at h
      simp [Except.map] at h
    · rw [hpp] at h
      simp only [Except.map, Except.ok.injEq, Prod.mk.injEq] at h
      obtain ⟨h1, _, h3⟩ := h
      left
      refine ⟨h3.symm, ?_⟩
      rw [← h1, paint_ok_eq p W H ppp prims r.1 r.2 (by rw [hpp])]
  | registerNativeOp t =>
    simp only [Painter.step] at h
    rcases hr : p.register_native_texture t with e | r
    · rw [hr] at h
      simp [Except.map] at h
    · rw [hr] at h
      simp only [Except.map, Except.ok.injEq, Prod.mk.injEq] at h
      obtain ⟨h1, _, h3⟩ := h
      obtain ⟨hid, hrec⟩ := register_ok_inv p t r.1 r.2 (by rw [hr])
      right
      constructor
      · rw [← h3, hid]
      · rw [← h1, hrec]
  | replaceNativeOp id t =>
    simp only [Painter.step] at h
    simp only [Except.ok.injEq, Prod.mk.injEq] at h
    obtain ⟨h1, _, h3⟩ := h
    left
    refine ⟨h3.symm, ?_⟩
    rw [← h1]
    exact (replace_native_state p id t).1
  | destroyOp =>
    simp only [Painter.step] at h
    simp only [Except.ok.injEq, Prod.mk.injEq] at h
    obtain ⟨h1, _, h3⟩ := h
    left
    refine ⟨h3.symm, ?_⟩
    rw [← h1]
    exact (destroy_state p).1

theorem runOps_ids (p : Painter) (ops : List PainterOp) (p' : Painter)
    (ids : List TextureId) (h : p.runOps ops = .ok (p', ids))
    (hlen : p.next_native_tex_id + ops.length ≤ 2 ^ 64) :
    (∀ id ∈ ids, ∃ n, id = TextureId.user n ∧
      p.next_native_tex_id ≤ n ∧ n < p.next_native_tex_id + ops.length) ∧
    ids.Pairwise (fun a b => a.natVal < b.natVal) := by
  induction ops generalizing p ids with
  | nil =>
    unfold Painter.runOps at h
    simp only [Except.ok.injEq, Prod.mk.injEq] at h
    obtain ⟨h1, h2⟩ := h
    subst h1
    subst h2
    exact ⟨by simp, List.Pairwise.nil⟩
  | cons op rest ih =>
    unfold Painter.runOps at h
    rcases hstep : p.step op with e | r
    · rw [hstep] at h
      simp [Bind.bind, Except.bind] at h
    · rw [hstep] at h
      obtain ⟨q, ops2, ret⟩ := r
      simp only [Bind.bind, Except.bind] at h
      rcases hrun : q.runOps rest with e | r2
      · rw [hrun] at h
        simp at h
      · rw [hrun] at h
        obtain ⟨p'', ids2⟩ := r2
        simp only [Except.ok.injEq, Prod.mk.injEq] at h
        obtain ⟨h1, h2⟩ := h
        subst h1
        subst h2
        simp only [List.length_cons] at hlen
        rcases step_next p op q ops2 ret hstep with ⟨hret, hnext⟩ | ⟨hret, hnext⟩
        · subst hret
          obtain ⟨ihmem, ihpw⟩ := ih q ids2 hrun (by omega)
          simp only [Option.toList_none, List.nil_append]
          refine ⟨fun id hid => ?_, ihpw⟩
          obtain ⟨n, ha, hb, hc⟩ := ihmem id hid
          exact ⟨n, ha, by omega, by simp only [List.length_cons]; omega⟩
        · subst hret
          simp only [Option.toList_some, List.singleton_append]
          by_cases hwrap : p.next_native_tex_id + 1 = 2 ^ 64
          · -- the increment wraps to 0, but then the length bound forces
            -- `rest = []`, so the wrapped counter is never used again
            have hrest : rest = [] := List.length_eq_zero.mp (by omega)
            subst hrest
            unfold Painter.runOps at hrun
            simp only [Except.ok.injEq, Prod.mk.injEq] at hrun
            obtain ⟨_, hids2⟩ := hrun
            subst hids2
            refine ⟨fun id hid => ?_, List.pairwise_singleton _ _⟩
            simp only [List.mem_singleton] at hid
            exact ⟨p.next_native_tex_id, hid, le_refl _,
              by simp only [List.length_cons]; omega⟩
          · have hnext' : q.next_native_tex_id = p.next_native_tex_id + 1 := by
              rw [hnext, Nat.mod_eq_of_lt (by omega)]
            obtain ⟨ihmem, ihpw⟩ := ih q ids2 hrun (by omega)
            refine ⟨fun id hid => ?_, ?_⟩
            · rcases List.mem_cons.mp hid with hEq | hmem2
              · exact ⟨p.next_native_tex_id, hEq, le_refl _,
                  by simp only [List.length_cons]; omega⟩
              · obtain ⟨n, ha, hb, hc⟩ := ihmem id hmem2
                rw [hnext'] at hb hc
                exact ⟨n, ha, by omega, by simp only [List.length_cons]; omega⟩
            · refine List.Pairwise.cons ?_ ihpw
              intro b hb
              obtain ⟨n, ha, hbn, _⟩ := ihmem b hb
              rw [ha, hnext'] at *
              simp only [TextureId.natVal]
              omega

/-- **C6** (amended: the strict-increase and high-offset guarantees hold for
any sequence of at most `2^64 - 2^32` Painter operations; beyond that the
`u64` counter `next_native_tex_id += 1` wraps around and the guarantees
fail, see the counterexample). Starting from `Painter::new` (whose
`next_native_tex_id` is `1 << 32`), across any such successful sequence the
ids returned by `register_native_texture` are strictly increasing (hence
pairwise distinct) and all lie in the `User` namespace at or above `2^32`. -/
theorem native_texture_ids_fresh (maxSide prog vbo ebo glc : ℕ)
    (ops : List PainterOp) (p' : Painter) (ids : List TextureId)
    (h : (Painter.mkNew maxSide prog vbo ebo glc).runOps ops = .ok (p', ids))
    (hlen : ops.length ≤ 2 ^ 64 - 2 ^ 32) :
    ids.Pairwise (fun a b => a.natVal < b.natVal) ∧
    ids.Nodup ∧
    ids.all TextureId.isUserAboveOffset = true := by
  obtain ⟨hmem, hpw⟩ := runOps_ids _ ops p' ids h
    (by simp only [Painter.mkNew]; omega)
  refine ⟨hpw, ?_, ?_⟩
  · exact hpw.imp fun hab hEq => by subst hEq; exact lt_irrefl _ hab
  · rw [List.all_eq_true]
    intro id hid
    obtain ⟨n, ha, hb, _⟩ := hmem id hid
    subst ha
    simp only [TextureId.isUserAboveOffset, decide_eq_true_eq]
    exact hb

/-- Witness for `native_texture_ids_fresh`: registering the native handles
5 then 6 returns `User (2^32)` and `User (2^32 + 1)`. -/
theorem native_texture_ids_fresh_witness :
    [TextureId.user (2 ^ 32), TextureId.user (2 ^ 32 + 1)].Pairwise
      (fun a b => a.natVal < b.natVal) ∧
    [TextureId.user (2 ^ 32), TextureId.user (2 ^ 32 + 1)].Nodup ∧
    [TextureId.user (2 ^ 32), TextureId.user (2 ^ 32 + 1)].all
      TextureId.isUserAboveOffset = true :=
  native_texture_ids_fresh 4096 1 2 3 10
    [.registerNativeOp 5, .registerNativeOp 6]
    { Painter.mkNew 4096 1 2 3 10 with
      next_native_tex_id := 2 ^ 32 + 2,
      textures := [(TextureId.user (2 ^ 32), 5), (TextureId.user (2 ^ 32 + 1), 6)] }
    [TextureId.user (2 ^ 32), TextureId.user (2 ^ 32 + 1)] (by rfl) (by decide)

theorem upload_ok_no_delete (p : Painter) (pos : Option (ℕ × ℕ)) (w h : ℕ)
    (options : TextureOptions) (dl : ℕ) (ops : List GlOp) (t : GlTexture)
    (hok : p.upload_texture_srgb pos w h options dl = .ok ops) :
    GlOp.deleteTexture t ∉ ops := by
  unfold Painter.upload_texture_srgb at hok
  split at hok
  · simp at hok
  · split at hok
    · simp at hok
    · simp only [Except.ok.injEq] at hok
      subst hok
      rcases pos with _ | ⟨x, y⟩ <;> split <;> simp

theorem set_texture_ok_no_delete (p : Painter) (id : TextureId) (delta : ImageDelta)
    (p' : Painter) (ops : List GlOp) (t : GlTexture)
    (h : p.set_texture id delta = .ok (p', ops)) :
    GlOp.deleteTexture t ∉ ops := by
  cases hd : p.destroyed with
  | true =>
    simp [Painter.set_texture, Painter.assert_not_destroyed, hd, Bind.bind, Except.bind] at h
  | false =>
    simp only [Painter.set_texture, Painter.assert_not_destroyed, hd, Bind.bind, Except.bind,
      Bool.false_eq_true, if_false] at h
    cases hl : lookupTex p.textures id with
    | some tex =>
      simp only [hl] at h
      split at h
      · simp at h
      · rcases hup : p.upload_texture_srgb delta.pos delta.image.width delta.image.height
            delta.options (4 * delta.image.pixelCount) with e | v
        · rw [hup] at h
          simp at h
        · rw [hup] at h
          simp only [Except.ok.injEq, Prod.mk.injEq] at h
          rw [← h.2]
          have := upload_ok_no_delete _ _ _ _ _ _ _ t hup
          simp [List.mem_cons, this]
    | none =>
      simp only [hl] at h
      split at h
      · simp at h
      · rcases hup : Painter.upload_texture_srgb _ delta.pos delta.image.width
            delta.image.height delta.options (4 * delta.image.pixelCount) with e | v
        · rw [hup] at h
          simp at h
        · rw [hup] at h
          simp only [Except.ok.injEq, Prod.mk.injEq] at h
          rw [← h.2]
          have := upload_ok_no_delete _ _ _ _ _ _ _ t hup
          simp [List.mem_cons, this]

theorem paint_primitive_ok_no_delete (p : Painter) (W H : ℕ) (ppp : ℚ)
    (cp : ClippedPrimitive) (ops : List GlOp) (t : GlTexture)
    (h : p.paint_primitive W H ppp cp = .ok ops) :
    GlOp.deleteTexture t ∉ ops := by
  unfold Painter.paint_primitive at h
  rcases hsc : set_clip_rect W H ppp cp.clip_rect with _ | sc
  · rw [hsc] at h
    simp at h
  · rw [hsc] at h
    simp only [Except.ok.injEq] at h
    subst h
    rcases cp with ⟨clip, prim⟩
    rcases prim with m | cb
    · unfold Painter.paint_mesh
      cases hl : p.texture m.texture_id <;> simp [hl]
    · simp only
      split
      · split <;> simp
      · simp

theorem paintLoop_ok_no_delete (p : Painter) (W H : ℕ) (ppp : ℚ)
    (prims : List ClippedPrimitive) (ops : List GlOp) (t : GlTexture)
    (h : p.paintLoop W H ppp prims = .ok ops) :
    GlOp.deleteTexture t ∉ ops := by
  induction prims generalizing ops with
  | nil =>
    unfold Painter.paintLoop at h
    simp only [Except.ok.injEq] at h
    subst h
    simp
  | cons cp rest ih =>
    unfold Painter.paintLoop at h
    rcases hcp : p.paint_primitive W H ppp cp with e | ops1
    · rw [hcp] at h
      simp [Bind.bind, Except.bind] at h
    · rw [hcp] at h
      simp only [Bind.bind, Except.bind] at h
      rcases hrest : p.paintLoop W H ppp rest with e | ops2
      · rw [hrest] at h
        simp at h
      · rw [hrest] at h
        simp only [Except.ok.injEq] at h
        subst h
        rw [List.mem_append]
        push_neg
        exact ⟨paint_primitive_ok_no_delete p W H ppp cp ops1 t hcp, ih ops2 hrest⟩

theorem paint_primitives_ok_no_delete (p : Painter) (W H : ℕ) (ppp : ℚ)
    (prims : List ClippedPrimitive) (q : Painter) (ops : List GlOp) (t : GlTexture)
    (h : p.paint_primitives W H ppp prims = .ok (q, ops)) :
    GlOp.deleteTexture t ∉ ops := by
  cases hd : p.destroyed with
  | true =>
    simp [Painter.paint_primitives, Painter.assert_not_destroyed, hd, Bind.bind,
      Except.bind] at h
  | false =>
    simp only [Painter.paint_primitives, Painter.assert_not_destroyed, hd, Bind.bind,
      Except.bind, Bool.false_eq_true, if_false] at h
    rcases hloop : p.paintLoop W H ppp prims with e | v
    · rw [hloop] at h
      simp at h
    · rw [hloop] at h
      simp only [Except.ok.injEq, Prod.mk.injEq] at h
      rw [← h.2]
      have := paintLoop_ok_no_delete p W H ppp prims v t hloop
      simp [List.mem_cons, List.mem_append, this]

theorem destroy_deletes_pending (p : Painter) (t : GlTexture)
    (hpd : p.destroyed = false) (ht : t ∈ p.textures_to_destroy) :
    GlOp.deleteTexture t ∈ p.destroy.2 := by
  unfold Painter.destroy
  rw [if_neg (by simp [hpd])]
  unfold Painter.destroy_gl
  refine List.mem_cons_of_mem _ (List.mem_append_right _ (List.mem_append_right _ ?_))
  exact List.mem_map_of_mem _ ht

theorem step_preserves_pending (p : Painter) (op : PainterOp) (p' : Painter)
    (ops : List GlOp) (ret : Option TextureId) (t : GlTexture)
    (h : p.step op = .ok (p', ops, ret))
    (hop : op ≠ PainterOp.destroyOp)
    (hnb : ∀ kv ∈ p.textures, kv.2 ≠ t) :
    GlOp.deleteTexture t ∉ ops ∧
    p'.textures_to_destroy.take p.textures_to_destroy.length = p.textures_to_destroy := by
  cases op with
  | setTextureOp id delta =>
    simp only [Painter.step] at h
    rcases hst : p.set_texture id delta with e | r
    · rw [hst] at h
      simp [Except.map] at h
    · rw [hst] at h
      simp only [Except.map, Except.ok.injEq, Prod.mk.injEq] at h
      obtain ⟨h1, h2, _⟩ := h
      constructor
      · rw [← h2]
        exact set_texture_ok_no_delete p id delta r.1 r.2 t (by rw [hst])
      · rw [← h1]
        rcases set_texture_ok_cases p id delta r.1 r.2 (by rw [hst]) with hq | hq <;>
          · rw [hq]
            simp [List.take_length]
  | freeTextureOp id =>
    simp only [Painter.step] at h
    simp only [Except.ok.injEq, Prod.mk.injEq] at h
    obtain ⟨h1, h2, _⟩ := h
    constructor
    · rw [← h2]
      unfold Painter.free_texture
      cases hl : lookupTex p.textures id with
      | none => simp
      | some old =>
        have hne : old ≠ t := hnb (id, old) (lookupTex_mem _ _ _ hl)
        simp [Ne.symm hne]
    · rw [← h1, (free_texture_state p id).2.1]
      exact List.take_length _
  | paintOp W H ppp prims =>
    simp only [Painter.step] at h
    rcases hpp : p.paint_primitives W H ppp prims with e | r
    · rw [hpp] at h
      simp [Except.map] at h
    · rw [hpp] at h
      simp only [Except.map, Except.ok.injEq, Prod.mk.injEq] at h
      obtain ⟨h1, h2, _⟩ := h
      constructor
      · rw [← h2]
        exact paint_primitives_ok_no_delete p W H ppp prims r.1 r.2 t (by rw [hpp])
      · rw [← h1, paint_ok_eq p W H ppp prims r.1 r.2 (by rw [hpp])]
        exact List.take_length _
  | registerNativeOp t2 =>
    simp only [Painter.step] at h
    rcases hr : p.register_native_texture t2 with e | r
    · rw [hr] at h
      simp [Except.map] at h
    · rw [hr] at h
      simp only [Except.map, Except.ok.injEq, Prod.mk.injEq] at h
      obtain ⟨h1, h2, _⟩ := h
      obtain ⟨_, hrec⟩ := register_ok_inv p t2 r.1 r.2 (by rw [hr])
      constructor
      · rw [← h2]
        simp
      · rw [← h1, hrec]
        simp [List.take_length]
  | replaceNativeOp id t2 =>
    simp only [Painter.step] at h
    simp only [Except.ok.injEq, Prod.mk.injEq] at h
    obtain ⟨h1, h2, _⟩ := h
    constructor
    · rw [← h2, (replace_native_state p id t2).2.2.2]
      simp
    · rw [← h1]
      exact (replace_native_state p id t2).2.2.1
  | destroyOp => exact absurd rfl hop

/-- **C7**: `replace_native_texture` on a bound id rebinds it to the new
handle and appends the displaced handle to the pending-deletion list
without emitting any GL call; no operation other than `destroy` deletes a
pending handle (one not bound in the table) or shrinks the pending list,
and `destroy` does delete every pending handle. -/
theorem replace_native_defers_deletion (p : Painter) (id : TextureId)
    (newTex old : GlTexture) (op : PainterOp) (p' : Painter) (ops : List GlOp)
    (ret : Option TextureId) (t : GlTexture)
    (hsome : lookupTex p.textures id = some old)
    (ht : t ∈ p.textures_to_destroy)
    (hnb : ∀ kv ∈ p.textures, kv.2 ≠ t)
    (hop : op ≠ PainterOp.destroyOp)
    (hstep : p.step op = .ok (p', ops, ret))
    (hpd : p.destroyed = false) :
    p.replace_native_texture id newTex =
      ({ p with textures := insertTex p.textures id newTex,
                textures_to_destroy := p.textures_to_destroy ++ [old] }, []) ∧
    (p.replace_native_texture id newTex).1.texture id = some newTex ∧
    GlOp.deleteTexture t ∉ ops ∧
    t ∈ p'.textures_to_destroy ∧
    p'.textures_to_destroy.take p.textures_to_destroy.length = p.textures_to_destroy ∧
    GlOp.deleteTexture t ∈ p.destroy.2 := by
  have hrepl : p.replace_native_texture id newTex =
      ({ p with textures := insertTex p.textures id newTex,
                textures_to_destroy := p.textures_to_destroy ++ [old] }, []) := by
    unfold Painter.replace_native_texture
    rw [hsome]
  have h2 := step_preserves_pending p op p' ops ret t hstep hop hnb
  have hmem : t ∈ p'.textures_to_destroy := by
    have hdecomp : p'.textures_to_destroy = p.textures_to_destroy ++
        p'.textures_to_destroy.drop p.textures_to_destroy.length := by
      conv_lhs => rw [← List.take_append_drop p.textures_to_destroy.length
        p'.textures_to_destroy]
      rw [h2.2]
    rw [hdecomp]
    exact List.mem_append_left _ ht
  refine ⟨hrepl, ?_, h2.1, hmem, h2.2, destroy_deletes_pending p t hpd ht⟩
  rw [hrepl]
  simp [Painter.texture, lookupTex_insertTex_self]

/-- Witness for `replace_native_defers_deletion`: the concrete Painter with
binding `Managed 0 ↦ 7` and pending handle 9; the interposed operation is
`free_texture (Managed 0)`. -/
theorem replace_native_defers_deletion_witness :
    painterEx.replace_native_texture (TextureId.managed 0) 8 =
      ({ painterEx with
         textures := insertTex painterEx.textures (TextureId.managed 0) 8,
         textures_to_destroy := painterEx.textures_to_destroy ++ [7] }, []) ∧
    (painterEx.replace_native_texture (TextureId.managed 0) 8).1.texture
      (TextureId.managed 0) = some 8 ∧
    GlOp.deleteTexture 9 ∉ [GlOp.deleteTexture 7] ∧
    (9 : GlTexture) ∈ ({ painterEx with textures := [] } : Painter).textures_to_destroy ∧
    ({ painterEx with textures := [] } : Painter).textures_to_destroy.take
      painterEx.textures_to_destroy.length = painterEx.textures_to_destroy ∧
    GlOp.deleteTexture 9 ∈ painterEx.destroy.2 :=
  replace_native_defers_deletion painterEx (TextureId.managed 0) 8 7
    (.freeTextureOp (TextureId.managed 0)) { painterEx with textures := [] }
    [GlOp.deleteTexture 7] none 9
    (by decide) (by decide) (by decide) (by decide) (by rfl) (by decide)

theorem register_step_ok (p : Painter) (t : GlTexture) (hp : p.destroyed = false) :
    p.step (.registerNativeOp t) =
      .ok ({ p with
             next_native_tex_id := (p.next_native_tex_id + 1) % 2 ^ 64,
             textures := insertTex p.textures (TextureId.user p.next_native_tex_id) t },
           [], some (TextureId.user p.next_native_tex_id)) := by
  simp [Painter.step, Painter.register_native_texture, Painter.assert_not_destroyed, hp,
    Bind.bind, Except.bind, Except.map]

theorem runOps_replicate_register (k : ℕ) (p : Painter) (t : GlTexture)
    (hp : p.destroyed = false) (hlt : p.next_native_tex_id < 2 ^ 64) :
    ∃ p', p.runOps (List.replicate k (.registerNativeOp t)) =
      .ok (p', (List.range k).map
        fun i => TextureId.user ((p.next_native_tex_id + i) % 2 ^ 64)) := by
  induction k generalizing p with
  | zero =>
    exact ⟨p, by unfold Painter.runOps; simp⟩
  | succ k ih =>
    have hq : ({ p with
        next_native_tex_id := (p.next_native_tex_id + 1) % 2 ^ 64,
        textures := insertTex p.textures (TextureId.user p.next_native_tex_id) t } :
          Painter).destroyed = false := hp
    obtain ⟨p', hrun⟩ := ih _ hq (Nat.mod_lt _ (by norm_num))
    refine ⟨p', ?_⟩
    have hrw : (List.range (k + 1)).map
        (fun i => TextureId.user ((p.next_native_tex_id + i) % 2 ^ 64)) =
        TextureId.user p.next_native_tex_id ::
          (List.range k).map (fun i =>
            TextureId.user (((p.next_native_tex_id + 1) % 2 ^ 64 + i) % 2 ^ 64)) := by
      rw [List.range_succ_eq_map, List.map_cons, List.map_map, Nat.add_zero,
          Nat.mod_eq_of_lt hlt]
      refine congrArg _ (List.map_congr_left fun i _ => ?_)
      simp only [Function.comp, Nat.succ_eq_add_one]
      rw [Nat.mod_add_mod, Nat.add_comm i 1, ← Nat.add_assoc]
    rw [hrw, List.replicate_succ]
    unfold Painter.runOps
    rw [register_step_ok p t hp]
    simp only [Bind.bind, Except.bind, hrun, Option.toList_some, List.singleton_append]

/-- **C6 counterexample**: the claim quantifies over *any* sequence of
calls, but `next_native_tex_id += 1` is a wrapping `u64` increment. After
`2^64 - 2^32 + 1` registrations from `Painter::new` the run still succeeds,
and the wrapped counter makes the last returned id `User 0`, which is below
the high offset `2^32` (and below its predecessor, so the returned ids are
neither all above the offset nor strictly increasing). -/
theorem native_texture_ids_fresh_cex :
    ((Painter.mkNew 4096 1 2 3 10).runOps
        (List.replicate (2 ^ 64 - 2 ^ 32 + 1) (PainterOp.registerNativeOp 5))).map
      Prod.snd =
      .ok ((List.range (2 ^ 64 - 2 ^ 32 + 1)).map
        fun i => TextureId.user ((2 ^ 32 + i) % 2 ^ 64)) ∧
    TextureId.user 0 ∈ ((List.range (2 ^ 64 - 2 ^ 32 + 1)).map
        fun i => TextureId.user ((2 ^ 32 + i) % 2 ^ 64)) ∧
    TextureId.isUserAboveOffset (TextureId.user 0) = false ∧
    ((List.range (2 ^ 64 - 2 ^ 32 + 1)).map
        fun i => TextureId.user ((2 ^ 32 + i) % 2 ^ 64)).all
      TextureId.isUserAboveOffset = false := by
  obtain ⟨p', hrun⟩ := runOps_replicate_register (2 ^ 64 - 2 ^ 32 + 1)
    (Painter.mkNew 4096 1 2 3 10) 5 (by rfl) (by norm_num [Painter.mkNew])
  have hrun' : (Painter.mkNew 4096 1 2 3 10).runOps
      (List.replicate (2 ^ 64 - 2 ^ 32 + 1) (PainterOp.registerNativeOp 5)) =
      .ok (p', (List.range (2 ^ 64 - 2 ^ 32 + 1)).map
        fun i => TextureId.user ((2 ^ 32 + i) % 2 ^ 64)) := hrun
  have key : (2 ^ 32 + (2 ^ 64 - 2 ^ 32)) % 2 ^ 64 = 0 := by omega
  have hmem : TextureId.user 0 ∈ ((List.range (2 ^ 64 - 2 ^ 32 + 1)).map
      fun i => TextureId.user ((2 ^ 32 + i) % 2 ^ 64)) := by
    refine List.mem_map.mpr ⟨2 ^ 64 - 2 ^ 32, List.mem_range.mpr (by omega), ?_⟩
    show TextureId.user ((2 ^ 32 + (2 ^ 64 - 2 ^ 32)) % 2 ^ 64) = TextureId.user 0
    rw [key]
  have hmap : ∀ L : List TextureId,
      (Except.ok (p', L) : Except PanicKind (Painter × List TextureId)).map Prod.snd =
        .ok L := fun L => rfl
  refine ⟨by rw [hrun', hmap], hmem, by decide, ?_⟩
  rw [Bool.eq_false_iff]
  intro hall
  have h0 := List.all_eq_true.mp hall _ hmem
  simp only [TextureId.isUserAboveOffset] at h0
  exact absurd (of_decide_eq_true h0) (by omega)
